import Mathlib

/-!
Verification of the labware-domain-models library: a shallow embedding of
`labware_domain_models` (plate definitions, well addressing, coordinate
math) together with theorems checking the natural-language specification
against the code.

Conventions of the embedding:
* Python `None`-able fields become `Option`; physical measurements become `ℚ`
  (Python numbers in the geometry code are ints/floats used exactly);
  Python exceptions become an explicit `LabwareError` and fallible
  operations return `Except LabwareError _`.
* Methods of `LabwareDefinition` become functions taking the definition as
  the first argument.
-/

deriving instance DecidableEq for Except

namespace LabwareDomainModels

/-- Embedding of the `LabwareDefinition` domain model
(`labware_definitions.py`).  The UUID is modelled opaquely as a natural
number; all optional fields default to `None` in Python, hence `Option`
here. -/
structure LabwareDefinition where
  uuid : Option Nat
  name : Option String
  row_count : Option Int
  column_count : Option Int
  center_of_a1 : Option (ℚ × ℚ)
  plate_height : Option ℚ
  row_center_to_center_spacing : Option ℚ
  column_center_to_center_spacing : Option ℚ
  distance_to_liquid : Option ℚ
deriving DecidableEq

/-- The exceptions of `exceptions.py`, plus the generic validation failure
raised by the external `immutable_data_validation.validate_int`
collaborator (carrying the offending field's name) and Python's
`NotImplementedError` used for the should-never-happen `None` re-checks. -/
inductive LabwareError where
  | validationError (field : String)
  | notImplementedError (field : String)
  | positionInvalidForLabwareDefinition
      (checked_row checked_column : Int) (labware_definition : LabwareDefinition)
  | wellCoordinatesRequireA1Center
  | wellCoordinatesRequireRowOffset
  | wellCoordinatesRequireColumnOffset
  | cartesianVectorRequirePlateHeight
deriving DecidableEq

/-- `CoordinateSystem` named tuple: where the plate origin sits in the
outer frame, and whether the outer frame's z axis points up. -/
structure CoordinateSystem where
  x_of_plate_origin : ℚ
  y_of_plate_origin : ℚ
  z_of_plate_origin : ℚ
  z_points_up : Bool
deriving DecidableEq

/-- `CartesianVector` named tuple. -/
structure CartesianVector where
  x : ℚ
  y : ℚ
  z : ℚ
deriving DecidableEq

/-- `WellCoordinate` named tuple. -/
structure WellCoordinate where
  x : ℚ
  y : ℚ
deriving DecidableEq

/-- `LabwareDefinition.validate_row_and_column_counts`: validates
`row_count` as an integer in [1, 32] and `column_count` as an integer in
[1, 48] via `validate_int`, failing (with the field name) when the field
is null or out of range. -/
def validate_row_and_column_counts (d : LabwareDefinition) :
    Except LabwareError Unit :=
  match d.row_count with
  | none => .error (.validationError "row_count")
  | some rc =>
    if rc < 1 ∨ 32 < rc then .error (.validationError "row_count")
    else
      match d.column_count with
      | none => .error (.validationError "column_count")
      | some cc =>
        if cc < 1 ∨ 48 < cc then .error (.validationError "column_count")
        else .ok ()

/-- `LabwareDefinition.validate_position`: re-validates the counts, then
raises `PositionInvalidForLabwareDefinitionError` (carrying the checked
row, checked column and the definition) when `test_column >= column_count`
or `test_row >= row_count`. -/
def validate_position (d : LabwareDefinition) (test_row test_column : Int) :
    Except LabwareError Unit := do
  validate_row_and_column_counts d
  match d.column_count with
  | none => Except.error (.notImplementedError "column_count")
  | some cc =>
    match d.row_count with
    | none => Except.error (.notImplementedError "row_count")
    | some rc =>
      if cc ≤ test_column ∨ rc ≤ test_row then
        Except.error (.positionInvalidForLabwareDefinition test_row test_column d)
      else Except.ok ()

/-- Python's `str.zfill`: left-pad with `'0'` up to `width` characters. -/
def zfill (width : Nat) (s : String) : String :=
  ⟨List.replicate (width - s.length) '0'⟩ ++ s

/-- `LabwareDefinition._get_formatted_column_string`: renders `column + 1`
in decimal; when `pad_zeros` is set it validates the counts and, if
`column_count > 10`, zero-pads the string to width 2. -/
def get_formatted_column_string (d : LabwareDefinition) (column : Nat)
    (pad_zeros : Bool) : Except LabwareError String :=
  let column_str := toString (column + 1)
  if pad_zeros then do
    validate_row_and_column_counts d
    match d.column_count with
    | none => Except.error (.notImplementedError "column_count")
    | some cc => Except.ok (if 10 < cc then zfill 2 column_str else column_str)
  else .ok column_str

/-- `LabwareDefinition.get_well_name_from_row_and_column`: the row
character is `chr(65 + row)` and the column string comes from
`_get_formatted_column_string`. -/
def get_well_name_from_row_and_column (d : LabwareDefinition)
    (row column : Nat) (pad_zeros : Bool) : Except LabwareError String := do
  let column_str ← get_formatted_column_string d column pad_zeros
  Except.ok (String.singleton (Char.ofNat (65 + row)) ++ column_str)

/-- `LabwareDefinition.get_row_and_column_from_well_index`: validates the
counts, then returns `(well_idx % row_count, floor(well_idx / row_count))`
(column-major). -/
def get_row_and_column_from_well_index (d : LabwareDefinition)
    (well_idx : Nat) : Except LabwareError (Nat × Nat) := do
  validate_row_and_column_counts d
  match d.column_count with
  | none => Except.error (.notImplementedError "column_count")
  | some _ =>
    match d.row_count with
    | none => Except.error (.notImplementedError "row_count")
    | some rc => Except.ok (well_idx % rc.toNat, well_idx / rc.toNat)

/-- Modelled from the spec: `get_well_index_from_row_and_column` is absent
from the sources under `src/` (only the test suite calls it).  Per the
spec, the linear well index is column-major, `index = column * row_count
+ row`, and the operation requires `row_count` to be validated/non-null
first. -/
def get_well_index_from_row_and_column (d : LabwareDefinition)
    (row column : Nat) : Except LabwareError Nat := do
  validate_row_and_column_counts d
  match d.row_count with
  | none => Except.error (.notImplementedError "row_count")
  | some rc => Except.ok (column * rc.toNat + row)

/-- `LabwareDefinition.get_xy_coordinates_of_well`: starts from
`center_of_a1` (error if null); adds `row_spacing * row_idx` to y when
`row_idx > 0` (error if the spacing is null); symmetrically for the
column/x; finally adds the x/y offsets. -/
def get_xy_coordinates_of_well (d : LabwareDefinition) (row_idx col_idx : Nat)
    (x_offset y_offset : ℚ) : Except LabwareError WellCoordinate :=
  match d.center_of_a1 with
  | none => .error .wellCoordinatesRequireA1Center
  | some (x0, y0) => do
    let y_coord ←
      if 0 < row_idx then
        match d.row_center_to_center_spacing with
        | none => Except.error .wellCoordinatesRequireRowOffset
        | some rs => Except.ok (y0 + rs * row_idx)
      else Except.ok y0
    let x_coord ←
      if 0 < col_idx then
        match d.column_center_to_center_spacing with
        | none => Except.error .wellCoordinatesRequireColumnOffset
        | some cs => Except.ok (x0 + cs * col_idx)
      else Except.ok x0
    Except.ok ⟨x_coord + x_offset, y_coord + y_offset⟩

/-- `LabwareDefinition.get_cartesian_vector_to_top_of_well`: checks
`plate_height` (error if null); computes the well XY with
`x_offset = offset_towards_right_plate_edge` and
`y_offset = -offset_towards_rear_of_plate`; multiplies y by `-1` and z by
`+1` when `z_points_up` (else y by `1`, z by `-1`), with
`z = plate_height + offset_towards_lid_of_plate` before the transform;
finally adds the coordinate system's plate-origin components. -/
def get_cartesian_vector_to_top_of_well (d : LabwareDefinition)
    (row_idx col_idx : Nat) (coordinate_system : CoordinateSystem)
    (offset_towards_right_plate_edge offset_towards_rear_of_plate
      offset_towards_lid_of_plate : ℚ) : Except LabwareError CartesianVector :=
  match d.plate_height with
  | none => .error .cartesianVectorRequirePlateHeight
  | some ph => do
    let y_offset := -offset_towards_rear_of_plate
    let wc ← get_xy_coordinates_of_well d row_idx col_idx
      offset_towards_right_plate_edge y_offset
    let y_transform : ℚ := if coordinate_system.z_points_up then -1 else 1
    let z_transform : ℚ := if coordinate_system.z_points_up then 1 else -1
    Except.ok
      ⟨wc.x + coordinate_system.x_of_plate_origin,
        wc.y * y_transform + coordinate_system.y_of_plate_origin,
        (ph + offset_towards_lid_of_plate) * z_transform
          + coordinate_system.z_of_plate_origin⟩

/-- `LabwareDefinition.create_portrait_definition`: builds a brand-new
definition with counts and spacings swapped, `plate_height` and
`distance_to_liquid` carried over, `center_of_a1` swapped to
`(old_y, old_x)` when present, and no uuid or name. -/
def create_portrait_definition (d : LabwareDefinition) : LabwareDefinition :=
  { uuid := none
    name := none
    row_count := d.column_count
    column_count := d.row_count
    center_of_a1 :=
      match d.center_of_a1 with
      | none => none
      | some (x, y) => some (y, x)
    plate_height := d.plate_height
    row_center_to_center_spacing := d.column_center_to_center_spacing
    column_center_to_center_spacing := d.row_center_to_center_spacing
    distance_to_liquid := d.distance_to_liquid }

/-- The digit-string core of Python's `int(str)`: succeeds exactly on a
nonempty all-digit string (the only shapes reaching it here), failing with
`ValueError` (modelled as `none`) otherwise. -/
def int_of_digit_chars (l : List Char) : Option Nat :=
  if l ≠ [] ∧ l.all Char.isDigit then
    some (l.foldl (fun a c => a * 10 + (c.toNat - 48)) 0)
  else none

/-- Free function `get_row_and_column_from_well_name`: the row is
`ord(well_name[0]) - 65` and the column is `int(well_name[1:]) - 1`
(`none` models the exception Python raises on an empty name or non-digit
remainder). -/
def get_row_and_column_from_well_name (well_name : String) :
    Option (Int × Int) :=
  match well_name.data with
  | [] => none
  | row_char :: rest =>
    (int_of_digit_chars rest).map
      (fun column => ((row_char.toNat : Int) - 65, (column : Int) - 1))

/-- Modelled from the spec: the Row-Label Codec function
`row_index0_to_letters` is absent from the sources under `src/` (only the
package namespace imports it and the test suite calls it).  Per the spec it
is bijective base-26: for `i < 26` a single letter `chr(65+i)`, otherwise
repeated bijective base-26 decomposition, most-significant letter first.
The fuel argument of the worker only bounds the recursion; `i + 1`
iterations always suffice since the index strictly decreases. -/
def row_index0_to_letters_go : Nat → Nat → List Char
  | 0, _ => []
  | fuel + 1, i =>
    if i < 26 then [Char.ofNat (65 + i)]
    else row_index0_to_letters_go fuel (i / 26 - 1) ++ [Char.ofNat (65 + i % 26)]

/-- Modelled from the spec: wrapper for [row_index0_to_letters_go] giving
the Row-Label Codec's index-to-label direction. -/
def row_index0_to_letters (i : Nat) : String :=
  ⟨row_index0_to_letters_go (i + 1) i⟩

/-- Modelled from the spec: the Row-Label Codec function
`row_letters_to_index0` is absent from the sources under `src/` (only the
package namespace imports it and the test suite calls it).  Per the spec it
is the inverse of `row_index0_to_letters` and must reject labels with
unsupported characters (anything but uppercase letters, and the empty
label). -/
def row_letters_to_index0 (label : String) : Option Nat :=
  if label.data ≠ [] ∧ label.data.all (fun c => 'A' ≤ c ∧ c ≤ 'Z') then
    some (label.data.foldl (fun a c => a * 26 + (c.toNat - 64)) 0 - 1)
  else none

/-- The `GENERIC_LABWARE_DEFINITION` fixture of the test suite: a 3×4
12-well plate with `center_of_a1 = (8, 7)`, `plate_height = 13.4`,
row spacing 12, column spacing 15, `distance_to_liquid = 4`. -/
def genericLabwareDefinition : LabwareDefinition :=
  { uuid := some 0
    name := some "12-well"
    row_count := some 3
    column_count := some 4
    center_of_a1 := some (8, 7)
    plate_height := some (67 / 5)
    row_center_to_center_spacing := some 12
    column_center_to_center_spacing := some 15
    distance_to_liquid := some 4 }

/-- A bare 32×48 1536-well plate definition. -/
def plate1536 : LabwareDefinition :=
  { uuid := none
    name := none
    row_count := some 32
    column_count := some 48
    center_of_a1 := none
    plate_height := none
    row_center_to_center_spacing := none
    column_center_to_center_spacing := none
    distance_to_liquid := none }

/-! ## Helper lemmas (shared across the verification) -/

theorem validate_counts_ok (d : LabwareDefinition) {rc cc : ℤ}
    (hr : d.row_count = some rc) (hc : d.column_count = some cc)
    (h1 : 1 ≤ rc) (h2 : rc ≤ 32) (h3 : 1 ≤ cc) (h4 : cc ≤ 48) :
    validate_row_and_column_counts d = .ok () := by
  simp only [validate_row_and_column_counts, hr, hc]
  rw [if_neg (by omega), if_neg (by omega)]

theorem validate_position_eq (d : LabwareDefinition) {rc cc : ℤ}
    (hr : d.row_count = some rc) (hc : d.column_count = some cc)
    (h1 : 1 ≤ rc) (h2 : rc ≤ 32) (h3 : 1 ≤ cc) (h4 : cc ≤ 48)
    (test_row test_column : ℤ) :
    validate_position d test_row test_column =
      if cc ≤ test_column ∨ rc ≤ test_row then
        .error (.positionInvalidForLabwareDefinition test_row test_column d)
      else .ok () := by
  have hv := validate_counts_ok d hr hc h1 h2 h3 h4
  simp only [validate_position, hv, hr, hc, bind, Except.bind]

/-- Case-by-case characterisation of `get_xy_coordinates_of_well`,
unfolding the `Except` plumbing of the embedding. -/
theorem get_xy_eq (d : LabwareDefinition) (r c : Nat) (xo yo : ℚ) :
    get_xy_coordinates_of_well d r c xo yo =
      match d.center_of_a1 with
      | none => .error .wellCoordinatesRequireA1Center
      | some (x0, y0) =>
        if 0 < r then
          match d.row_center_to_center_spacing with
          | none => .error .wellCoordinatesRequireRowOffset
          | some rs =>
            if 0 < c then
              match d.column_center_to_center_spacing with
              | none => .error .wellCoordinatesRequireColumnOffset
              | some cs => .ok ⟨x0 + cs * c + xo, y0 + rs * r + yo⟩
            else .ok ⟨x0 + xo, y0 + rs * r + yo⟩
        else
          if 0 < c then
            match d.column_center_to_center_spacing with
            | none => .error .wellCoordinatesRequireColumnOffset
            | some cs => .ok ⟨x0 + cs * c + xo, y0 + yo⟩
          else .ok ⟨x0 + xo, y0 + yo⟩ := by
  unfold get_xy_coordinates_of_well
  rcases d.center_of_a1 with _ | ⟨x0, y0⟩
  · rfl
  · rcases Nat.eq_zero_or_pos r with hr | hr <;>
      rcases Nat.eq_zero_or_pos c with hc | hc <;>
        rcases hrs : d.row_center_to_center_spacing with _ | rs <;>
          rcases hcs : d.column_center_to_center_spacing with _ | cs <;>
            simp [hr, hc, hrs, hcs, Nat.pos_iff_ne_zero, bind, Except.bind]

/-! ## Claim theorems -/

/-- C1: on a 32×48 plate, `get_well_name_from_row_and_column(26, 47,
pad_zeros=True)` evaluates to `"[48"` — the row character is
`chr(65 + 26) = '['`, not the Row-Label-Codec label `"AA"` the claim (and
the repository's own test, which expects `"AA48"`) calls for. -/
theorem get_well_name_row26_evaluates_to_bracket48 :
    get_well_name_from_row_and_column plate1536 26 47 true = .ok "[48" ∧
    get_well_name_from_row_and_column plate1536 26 47 true ≠ .ok "AA48" ∧
    row_index0_to_letters 26 ++ "48" = "AA48" := by decide

/-- C2: the Row-Label Codec functions are mutually inverse on the
supported range 0..31; the label of `i < 26` is the single letter
`chr(65+i)`; labels with unsupported characters (for instance a digit) are
rejected. -/
theorem rowLabelCodec_round_trip :
    (∀ i < 32, row_letters_to_index0 (row_index0_to_letters i) = some i) ∧
    (∀ i < 26, row_index0_to_letters i = String.singleton (Char.ofNat (65 + i))) ∧
    row_letters_to_index0 "A1" = none := by decide

/-- Witness for C2 at `i = 26` (label `"AA"`). -/
theorem rowLabelCodec_round_trip_witness :
    row_letters_to_index0 (row_index0_to_letters 26) = some 26 :=
  rowLabelCodec_round_trip.1 26 (by decide)

/-- C9 counterexample: the free name-parsing function does not decode the
multi-letter name `"AA48"` to `(26, 47)`; it fails (Python raises
`ValueError` from `int("A48")`), so the parse is `none`. -/
theorem get_row_and_column_from_well_name_multiletter_fails :
    get_row_and_column_from_well_name "AA48" = none ∧
    get_row_and_column_from_well_name "AA48" ≠ some (26, 47) := by decide

/-- C9 (amended): the parser takes only the first character of the name as
the row (`ord(char) - 65`) and the remaining characters — which must all
be decimal digits — as a 1-based decimal column converted to zero-based by
subtracting 1, tolerating zero padding; multi-letter row labels are not
supported. -/
theorem get_row_and_column_from_well_name_spec (row_char : Char)
    (rest : List Char) (hne : rest ≠ []) (hdig : rest.all Char.isDigit) :
    get_row_and_column_from_well_name ⟨row_char :: rest⟩ =
      some ((row_char.toNat : Int) - 65,
        ((rest.foldl (fun a c => a * 10 + (c.toNat - 48)) 0 : Nat) : Int) - 1) := by
  simp [get_row_and_column_from_well_name, int_of_digit_chars, hne, hdig]

/-- Witness for C9's amended claim at the zero-padded name `"A02"`. -/
theorem get_row_and_column_from_well_name_spec_witness :
    get_row_and_column_from_well_name ⟨['A', '0', '2']⟩ = some (0, 1) :=
  (get_row_and_column_from_well_name_spec 'A' ['0', '2'] (by decide)
    (by decide)).trans (by decide)

/-- C4: with `center_of_a1 = (x0, y0)` and the spacings present whenever
the corresponding index is positive, `get_xy_coordinates_of_well` returns
`(x0 + col*column_spacing + x_offset, y0 + row*row_spacing + y_offset)`,
the spacing term being omitted when the corresponding index is 0. -/
theorem get_xy_coordinates_of_well_spec (d : LabwareDefinition)
    (x0 y0 rs cs : ℚ) (row_idx col_idx : Nat) (x_offset y_offset : ℚ)
    (hc : d.center_of_a1 = some (x0, y0))
    (hrow : 0 < row_idx → d.row_center_to_center_spacing = some rs)
    (hcol : 0 < col_idx → d.column_center_to_center_spacing = some cs) :
    get_xy_coordinates_of_well d row_idx col_idx x_offset y_offset =
      .ok ⟨x0 + (if 0 < col_idx then cs * col_idx else 0) + x_offset,
        y0 + (if 0 < row_idx then rs * row_idx else 0) + y_offset⟩ := by
  rw [get_xy_eq, hc]
  rcases Nat.eq_zero_or_pos row_idx with h | h
  · rcases Nat.eq_zero_or_pos col_idx with h2 | h2
    · simp [h, h2]
    · simp [h, h2, hcol h2]
  · rcases Nat.eq_zero_or_pos col_idx with h2 | h2
    · simp [h, h2, hrow h]
    · simp [h, h2, hrow h, hcol h2]

/-- Witness for C4 on the 12-well fixture (`center_of_a1 = (8, 7)`,
row spacing 12, column spacing 15): well (2,0) ↦ (8, 31) and
well (0,2) ↦ (38, 7). -/
theorem get_xy_coordinates_of_well_spec_witness :
    get_xy_coordinates_of_well genericLabwareDefinition 2 0 0 0 = .ok ⟨8, 31⟩ ∧
    get_xy_coordinates_of_well genericLabwareDefinition 0 2 0 0 = .ok ⟨38, 7⟩ := by
  constructor
  · have h := get_xy_coordinates_of_well_spec genericLabwareDefinition
      8 7 12 15 2 0 0 0 rfl (fun _ => rfl) (fun hx => absurd hx (by decide))
    rw [h]
    norm_num
  · have h := get_xy_coordinates_of_well_spec genericLabwareDefinition
      8 7 12 15 0 2 0 0 rfl (fun hx => absurd hx (by decide)) (fun _ => rfl)
    rw [h]
    norm_num

/-- C3: with `plate_height = ph` and the XY computation (at
`x_offset = offset_towards_right_plate_edge`,
`y_offset = -offset_towards_rear_of_plate`) yielding `w`,
`get_cartesian_vector_to_top_of_well` negates y and takes
`z = +(ph + lid_offset)` when `z_points_up`, keeps y and takes
`z = -(ph + lid_offset)` otherwise, then adds the coordinate system's
plate-origin components. -/
theorem get_cartesian_vector_to_top_of_well_spec (d : LabwareDefinition)
    (ph : ℚ) (row_idx col_idx : Nat) (coordinate_system : CoordinateSystem)
    (oRight oRear oLid : ℚ) (w : WellCoordinate)
    (hph : d.plate_height = some ph)
    (hxy : get_xy_coordinates_of_well d row_idx col_idx oRight (-oRear) = .ok w) :
    get_cartesian_vector_to_top_of_well d row_idx col_idx coordinate_system
        oRight oRear oLid =
      .ok ⟨w.x + coordinate_system.x_of_plate_origin,
        (if coordinate_system.z_points_up then -w.y else w.y)
          + coordinate_system.y_of_plate_origin,
        (if coordinate_system.z_points_up then ph + oLid else -(ph + oLid))
          + coordinate_system.z_of_plate_origin⟩ := by
  unfold get_cartesian_vector_to_top_of_well
  rw [hph]
  simp only [hxy, bind, Except.bind]
  cases hz : coordinate_system.z_points_up <;> simp [hz, mul_one, mul_neg_one]

/-- Witness for C3 on the 12-well fixture (`center_of_a1 = (8, 7)`,
`plate_height = 13.4 = 67/5`, origin (0,0,0)): z-up gives (8, -7, 13.4)
and z-down gives (8, 7, -13.4). -/
theorem get_cartesian_vector_to_top_of_well_spec_witness :
    get_cartesian_vector_to_top_of_well genericLabwareDefinition 0 0
        ⟨0, 0, 0, true⟩ 0 0 0 = .ok ⟨8, -7, 67 / 5⟩ ∧
    get_cartesian_vector_to_top_of_well genericLabwareDefinition 0 0
        ⟨0, 0, 0, false⟩ 0 0 0 = .ok ⟨8, 7, -(67 / 5)⟩ := by
  have hxy : get_xy_coordinates_of_well genericLabwareDefinition 0 0 0 (-0) =
      .ok ⟨8, 7⟩ := by
    simp [get_xy_eq, genericLabwareDefinition]
  constructor
  · have h := get_cartesian_vector_to_top_of_well_spec genericLabwareDefinition
      (67 / 5) 0 0 ⟨0, 0, 0, true⟩ 0 0 0 ⟨8, 7⟩ rfl hxy
    rw [h]
    simp
  · have h := get_cartesian_vector_to_top_of_well_spec genericLabwareDefinition
      (67 / 5) 0 0 ⟨0, 0, 0, false⟩ 0 0 0 ⟨8, 7⟩ rfl hxy
    rw [h]
    simp

/-- C6: the missing-geometry failures are lazy and field-specific:
a null `center_of_a1` gives the A1-center error; a positive row index with
null row spacing gives the row-spacing error, while row index 0 never
produces it (symmetrically for columns); a null `plate_height` gives the
plate-height error from the cartesian computation.  (In the embedding a
`LabwareDefinition` is a plain record, so constructing one cannot raise —
the errors only arise from these operations.) -/
theorem missing_geometry_errors_lazy :
    ∀ (d : LabwareDefinition) (r c : Nat) (xo yo : ℚ),
      (d.center_of_a1 = none →
        get_xy_coordinates_of_well d r c xo yo =
          .error .wellCoordinatesRequireA1Center) ∧
      (d.center_of_a1 ≠ none → 0 < r → d.row_center_to_center_spacing = none →
        get_xy_coordinates_of_well d r c xo yo =
          .error .wellCoordinatesRequireRowOffset) ∧
      (get_xy_coordinates_of_well d 0 c xo yo ≠
        .error .wellCoordinatesRequireRowOffset) ∧
      (d.center_of_a1 ≠ none → (r = 0 ∨ d.row_center_to_center_spacing ≠ none) →
        0 < c → d.column_center_to_center_spacing = none →
        get_xy_coordinates_of_well d r c xo yo =
          .error .wellCoordinatesRequireColumnOffset) ∧
      (get_xy_coordinates_of_well d r 0 xo yo ≠
        .error .wellCoordinatesRequireColumnOffset) ∧
      (∀ (coordinate_system : CoordinateSystem) (o1 o2 o3 : ℚ),
        d.plate_height = none →
        get_cartesian_vector_to_top_of_well d r c coordinate_system o1 o2 o3 =
          .error .cartesianVectorRequirePlateHeight) := by
  intro d r c xo yo
  refine ⟨?_, ?_, ?_, ?_, ?_, ?_⟩
  · intro h
    rw [get_xy_eq, h]
  · intro hc0 hr hrs
    obtain ⟨⟨x0, y0⟩, hc⟩ := Option.ne_none_iff_exists'.mp hc0
    rw [get_xy_eq, hc, hrs]
    simp [hr]
  · rcases hc : d.center_of_a1 with _ | ⟨x0, y0⟩
    · simp [get_xy_eq, hc]
    · by_cases h2 : 0 < c
      · rcases hcs : d.column_center_to_center_spacing with _ | cspc <;>
          simp [get_xy_eq, hc, h2, hcs]
      · simp [get_xy_eq, hc, h2]
  · intro hc0 hrs h2 hcs
    obtain ⟨⟨x0, y0⟩, hc⟩ := Option.ne_none_iff_exists'.mp hc0
    rcases hrs with hr0 | hrs
    · rw [get_xy_eq, hc, hr0]
      simp [h2, hcs]
    · obtain ⟨rspc, hrsome⟩ := Option.ne_none_iff_exists'.mp hrs
      rcases Nat.eq_zero_or_pos r with hr0 | hrpos
      · rw [get_xy_eq, hc, hr0]
        simp [h2, hcs]
      · rw [get_xy_eq, hc, hrsome, hcs]
        simp [hrpos, h2]
  · rcases hc : d.center_of_a1 with _ | ⟨x0, y0⟩
    · simp [get_xy_eq, hc]
    · rcases Nat.eq_zero_or_pos r with hr0 | hrpos
      · simp [get_xy_eq, hc, hr0]
      · rcases hrs : d.row_center_to_center_spacing with _ | rspc <;>
          simp [get_xy_eq, hc, hrpos, hrs]
  · intro coordinate_system o1 o2 o3 h
    simp [get_cartesian_vector_to_top_of_well, h]

/-- Witness for C6 on variants of the 12-well fixture with single fields
removed. -/
theorem missing_geometry_errors_lazy_witness :
    get_xy_coordinates_of_well
        { genericLabwareDefinition with center_of_a1 := none } 0 0 0 0 =
      .error .wellCoordinatesRequireA1Center ∧
    get_xy_coordinates_of_well
        { genericLabwareDefinition with row_center_to_center_spacing := none }
        1 0 0 0 = .error .wellCoordinatesRequireRowOffset ∧
    get_xy_coordinates_of_well
        { genericLabwareDefinition with row_center_to_center_spacing := none }
        0 2 0 0 ≠ .error .wellCoordinatesRequireRowOffset ∧
    get_xy_coordinates_of_well
        { genericLabwareDefinition with column_center_to_center_spacing := none }
        0 1 0 0 = .error .wellCoordinatesRequireColumnOffset ∧
    get_xy_coordinates_of_well
        { genericLabwareDefinition with column_center_to_center_spacing := none }
        1 0 0 0 ≠ .error .wellCoordinatesRequireColumnOffset ∧
    get_cartesian_vector_to_top_of_well
        { genericLabwareDefinition with plate_height := none } 0 0
        ⟨0, 0, 0, false⟩ 0 0 0 = .error .cartesianVectorRequirePlateHeight :=
  ⟨(missing_geometry_errors_lazy _ 0 0 0 0).1 rfl,
    (missing_geometry_errors_lazy _ 1 0 0 0).2.1 (Option.some_ne_none _)
      (by decide) rfl,
    (missing_geometry_errors_lazy _ 0 2 0 0).2.2.1,
    (missing_geometry_errors_lazy _ 0 1 0 0).2.2.2.1 (Option.some_ne_none _)
      (Or.inl rfl) (by decide) rfl,
    (missing_geometry_errors_lazy _ 1 0 0 0).2.2.2.2.1,
    (missing_geometry_errors_lazy _ 0 0 0 0).2.2.2.2.2 ⟨0, 0, 0, false⟩ 0 0 0 rfl⟩

/-- C5: the linear well index is column-major —
`well_index_from_row_and_column(row, column) = column * row_count + row`,
`row_and_column_from_well_index(index) = (index mod row_count,
index div row_count)` — and the two are mutually inverse on valid
indices. -/
theorem well_index_column_major (d : LabwareDefinition) (rc cc : ℤ)
    (hr : d.row_count = some rc) (hc : d.column_count = some cc)
    (h1 : 1 ≤ rc) (h2 : rc ≤ 32) (h3 : 1 ≤ cc) (h4 : cc ≤ 48) :
    (∀ row column : Nat,
      get_well_index_from_row_and_column d row column =
        .ok (column * rc.toNat + row)) ∧
    (∀ well_idx : Nat,
      get_row_and_column_from_well_index d well_idx =
        .ok (well_idx % rc.toNat, well_idx / rc.toNat)) ∧
    (∀ row column : Nat, row < rc.toNat →
      get_row_and_column_from_well_index d (column * rc.toNat + row) =
        .ok (row, column)) ∧
    (∀ well_idx : Nat,
      get_well_index_from_row_and_column d (well_idx % rc.toNat)
        (well_idx / rc.toNat) = .ok well_idx) := by
  have hv := validate_counts_ok d hr hc h1 h2 h3 h4
  have ht : 0 < rc.toNat := by omega
  have hfwd : ∀ row column : Nat,
      get_well_index_from_row_and_column d row column =
        .ok (column * rc.toNat + row) := by
    intro row column
    simp [get_well_index_from_row_and_column, hv, hr, bind, Except.bind]
  have hinv : ∀ well_idx : Nat,
      get_row_and_column_from_well_index d well_idx =
        .ok (well_idx % rc.toNat, well_idx / rc.toNat) := by
    intro well_idx
    simp [get_row_and_column_from_well_index, hv, hr, hc, bind, Except.bind]
  refine ⟨hfwd, hinv, ?_, ?_⟩
  · intro row column hlt
    have hmod : (column * rc.toNat + row) % rc.toNat = row := by
      rw [Nat.mul_comm, Nat.mul_add_mod, Nat.mod_eq_of_lt hlt]
    have hdiv : (column * rc.toNat + row) / rc.toNat = column := by
      rw [Nat.mul_comm, Nat.mul_add_div ht, Nat.div_eq_of_lt hlt, Nat.add_zero]
    rw [hinv, hmod, hdiv]
  · intro well_idx
    rw [hfwd]
    have hdm : well_idx / rc.toNat * rc.toNat + well_idx % rc.toNat = well_idx := by
      rw [Nat.mul_comm, Nat.div_add_mod]
    rw [hdm]

/-- Witness for C5 on a 3×4 plate: index 2 ↔ (row 2, col 0), index 3 ↔
(row 0, col 1). -/
theorem well_index_column_major_witness :
    get_row_and_column_from_well_index genericLabwareDefinition 2 = .ok (2, 0) ∧
    get_row_and_column_from_well_index genericLabwareDefinition 3 = .ok (0, 1) ∧
    get_well_index_from_row_and_column genericLabwareDefinition 2 0 = .ok 2 ∧
    get_well_index_from_row_and_column genericLabwareDefinition 0 1 = .ok 3 := by
  have h := well_index_column_major genericLabwareDefinition 3 4 rfl rfl
    (by decide) (by decide) (by decide) (by decide)
  exact ⟨(h.2.1 2).trans (by decide), (h.2.1 3).trans (by decide),
    (h.1 2 0).trans (by decide), (h.1 0 1).trans (by decide)⟩

/-- C7: with valid counts, `validate_position(row, column)` produces the
addressing error — carrying the checked row, the checked column and the
definition itself — exactly when `column >= column_count` or
`row >= row_count`; the last in-bounds position never raises while
`(row_count, c)` and `(r, column_count)` always do. -/
theorem validate_position_addressing (d : LabwareDefinition) (rc cc : ℤ)
    (hr : d.row_count = some rc) (hc : d.column_count = some cc)
    (h1 : 1 ≤ rc) (h2 : rc ≤ 32) (h3 : 1 ≤ cc) (h4 : cc ≤ 48) :
    (∀ test_row test_column : ℤ,
      validate_position d test_row test_column =
          .error (.positionInvalidForLabwareDefinition test_row test_column d) ↔
        cc ≤ test_column ∨ rc ≤ test_row) ∧
    validate_position d (rc - 1) (cc - 1) = .ok () ∧
    (∀ c : ℤ, validate_position d rc c =
      .error (.positionInvalidForLabwareDefinition rc c d)) ∧
    (∀ r : ℤ, validate_position d r cc =
      .error (.positionInvalidForLabwareDefinition r cc d)) := by
  refine ⟨?_, ?_, ?_, ?_⟩
  · intro r c
    rw [validate_position_eq d hr hc h1 h2 h3 h4]
    constructor
    · intro h
      by_contra hcon
      rw [if_neg hcon] at h
      exact Except.noConfusion h
    · intro h
      rw [if_pos h]
  · rw [validate_position_eq d hr hc h1 h2 h3 h4, if_neg (by omega)]
  · intro c
    rw [validate_position_eq d hr hc h1 h2 h3 h4, if_pos (by omega)]
  · intro r
    rw [validate_position_eq d hr hc h1 h2 h3 h4, if_pos (by omega)]

/-- Witness for C7 on the 3×4 fixture: (2,3) is accepted; row 3 or
column 4 raises the addressing error with its payload. -/
theorem validate_position_addressing_witness :
    validate_position genericLabwareDefinition 2 3 = .ok () ∧
    validate_position genericLabwareDefinition 3 0 =
      .error (.positionInvalidForLabwareDefinition 3 0
        genericLabwareDefinition) ∧
    validate_position genericLabwareDefinition 0 4 =
      .error (.positionInvalidForLabwareDefinition 0 4
        genericLabwareDefinition) := by
  have h := validate_position_addressing genericLabwareDefinition 3 4 rfl rfl
    (by decide) (by decide) (by decide) (by decide)
  exact ⟨h.2.1, h.2.2.1 0, h.2.2.2 0⟩

/-- C8: `create_portrait_definition` returns a new definition with counts
and spacings swapped, `plate_height` and `distance_to_liquid` unchanged,
`center_of_a1` swapped to `(old_y, old_x)` when present (null otherwise),
and with neither uuid nor name copied over.  The embedding is pure, so the
source definition is never mutated. -/
theorem create_portrait_definition_spec :
    ∀ d : LabwareDefinition,
      (create_portrait_definition d).row_count = d.column_count ∧
      (create_portrait_definition d).column_count = d.row_count ∧
      (create_portrait_definition d).row_center_to_center_spacing =
        d.column_center_to_center_spacing ∧
      (create_portrait_definition d).column_center_to_center_spacing =
        d.row_center_to_center_spacing ∧
      (create_portrait_definition d).plate_height = d.plate_height ∧
      (create_portrait_definition d).distance_to_liquid =
        d.distance_to_liquid ∧
      (create_portrait_definition d).center_of_a1 =
        d.center_of_a1.map (fun p => (p.2, p.1)) ∧
      (create_portrait_definition d).uuid = none ∧
      (create_portrait_definition d).name = none := by
  intro d
  refine ⟨rfl, rfl, rfl, rfl, rfl, rfl, ?_, rfl, rfl⟩
  rcases hc : d.center_of_a1 with _ | ⟨x, y⟩ <;>
    simp [create_portrait_definition, hc]

/-- C10: `validate_position` has no lower-bound check — any position whose
row and column are each either negative or below the respective count is
accepted without the addressing error. -/
theorem validate_position_no_lower_bound (d : LabwareDefinition) (rc cc : ℤ)
    (hr : d.row_count = some rc) (hc : d.column_count = some cc)
    (h1 : 1 ≤ rc) (h2 : rc ≤ 32) (h3 : 1 ≤ cc) (h4 : cc ≤ 48)
    (test_row test_column : ℤ)
    (hrow : test_row < 0 ∨ test_row < rc)
    (hcol : test_column < 0 ∨ test_column < cc) :
    validate_position d test_row test_column = .ok () := by
  rw [validate_position_eq d hr hc h1 h2 h3 h4, if_neg (by omega)]

/-- Witness for C10: the negative position (-5, -7) passes validation on
the 3×4 fixture. -/
theorem validate_position_no_lower_bound_witness :
    validate_position genericLabwareDefinition (-5) (-7) = .ok () :=
  validate_position_no_lower_bound genericLabwareDefinition 3 4 rfl rfl
    (by decide) (by decide) (by decide) (by decide) (-5) (-7)
    (Or.inl (by decide)) (Or.inl (by decide))

end LabwareDomainModels
